import Mathlib

/-!
Verification development for the agri-nexus weather simulation engine
(`backend/app/services/simulation_engine.py` and the time-jump endpoint of
`backend/app/routers/simulation.py`).

Modelling conventions:
* Python floats are modelled as rationals (`ℚ`); `round(x, 2)` is modelled by
  `round2` (round to the nearest multiple of 1/100; Python's round-half-to-even
  tie rule differs from Mathlib's round-half-up only on exact half-cent ties,
  which no claim depends on).
* Each call to the global random generator inside one `update_state` tick is an
  explicit field of `TickDraws`; theorems quantify over all draw outcomes.
* `math.sin(x * 2π/24)` appears in the temperature and humidity models with a
  rational-valued argument factor `x = hour - peak + 6`.  Since `π` is not
  rational, the composite map `x ↦ sin(x·2π/24)` is modelled as an abstract
  parameter `sinPhase : ℚ → ℚ`; every stateful theorem is proved for all such
  functions, hence in particular for the real one.  The purely mathematical
  diurnal-extremum claim is settled separately over `ℝ` with `Real.sin`
  (`diurnal_base_temperature` below), translated literally from the source
  formula.
* The human-readable `title`/`message` strings of alerts are elided from
  `AlertBase` (no claim mentions them); the machine-relevant fields
  (`type`, `severity`, `threshold_value`, `actual_value`) are kept.
* `update_state` returns the mutated simulator; the `SensorReading` snapshot it
  also returns in the source is a pure projection of the post-tick state that
  no claim refers to.
-/

namespace AgriNexus

/-- `SimulationConfig` from `simulation_engine.py` (lines 23-54), with the
documented default values. -/
structure SimulationConfig where
  base_temp : ℚ := 28
  temp_amplitude : ℚ := 8
  peak_hour : ℤ := 14
  temp_noise : ℚ := 3/10
  base_humidity : ℚ := 65
  humidity_amplitude : ℚ := 15
  humidity_peak_hour : ℤ := 5
  base_pressure : ℚ := 101325/100
  pressure_drift_range : ℚ := 20
  decay_rate : ℚ := 995/1000
  rain_moisture_spike : ℚ := 95
  evaporation_factor : ℚ := 2/100
  rain_humidity_threshold : ℚ := 85
  rain_pressure_threshold : ℚ := 1005
  rain_base_probability : ℚ := 1/100
  rain_duration_min : ℤ := 10
  rain_duration_max : ℤ := 50
  ticks_per_virtual_hour : ℤ := 30
deriving DecidableEq

/-- `WeatherState` from `simulation_engine.py` (lines 57-78), with the
construction-time defaults. -/
structure WeatherState where
  temperature : ℚ := 28
  humidity : ℚ := 65
  pressure : ℚ := 101325/100
  soil_moisture : ℚ := 50
  rainfall : ℚ := 0
  is_raining : Bool := false
  rain_intensity : ℚ := 0
  rain_ticks_remaining : ℤ := 0
  tick_count : ℕ := 0
  virtual_hour : ℚ := 6
  wind_speed : ℚ := 5
  wind_direction : ℚ := 180
deriving DecidableEq

/-- `AlertSeverity` from `app/models/schemas.py`. -/
inductive AlertSeverity where
  | low
  | medium
  | high
  | critical
deriving DecidableEq

/-- `AlertType` from `app/models/schemas.py`. -/
inductive AlertType where
  | CRITICAL_DRY
  | STORM_WARNING
  | HEAT_WARNING
  | FROST_WARNING
  | DISEASE_RISK
  | WATERLOGGING
deriving DecidableEq

/-- `AlertBase` from `app/models/schemas.py` (title/message strings elided). -/
structure AlertBase where
  type : AlertType
  severity : AlertSeverity
  threshold_value : ℚ
  actual_value : ℚ
deriving DecidableEq

/-- One outcome of every random draw made during a single `update_state` call.
Gaussian draws range over all of `ℚ`; the range restrictions on
`random.random()`, `random.randint` and `random.uniform` are imposed as
hypotheses where needed (in the reachability relation). -/
structure TickDraws where
  temp_noise : ℚ := 0
  humidity_noise : ℚ := 0
  trend_noise : ℚ := 0
  wind_noise : ℚ := 0
  intensity_noise : ℚ := 0
  start_roll : ℚ := 1
  start_duration : ℤ := 30
  start_intensity : ℚ := 1/2
deriving DecidableEq

/-- The `WeatherSimulator` object: its config, mutable state, `_alerts` list
and hidden `_pressure_trend` variable. -/
structure WeatherSimulator where
  config : SimulationConfig
  state : WeatherState
  alerts : List AlertBase
  pressure_trend : ℚ
deriving DecidableEq

/-- `WeatherSimulator.__init__` (lines 91-98): `config or SimulationConfig()`,
fresh default state, empty alerts, zero pressure trend.  Note: no validation of
the configuration is performed. -/
def WeatherSimulator.init (config : Option SimulationConfig) : WeatherSimulator :=
  { config := config.getD {}, state := {}, alerts := [], pressure_trend := 0 }

/-- `WeatherSimulator.reset` (lines 100-104). -/
def WeatherSimulator.reset (e : WeatherSimulator) : WeatherSimulator :=
  { e with state := {}, alerts := [], pressure_trend := 0 }

/-- `round(x, 2)`: round to 2 decimal places. -/
def round2 (x : ℚ) : ℚ := (round (x * 100) : ℤ) / 100

/-- `_calculate_diurnal_temperature` (lines 106-141).  `sinPhase y` stands for
`math.sin(y * (2 * math.pi / 24))`; the argument passed is
`hour - peak_hour + 6` so that `sinPhase` is applied exactly to the source's
`phase_shift` divided by `2π/24`. -/
def calculate_diurnal_temperature (sinPhase : ℚ → ℚ) (cfg : SimulationConfig)
    (d : TickDraws) (s : WeatherState) : ℚ :=
  let sine_value := sinPhase (s.virtual_hour - (cfg.peak_hour : ℚ) + 6)
  let base_temp := cfg.base_temp + cfg.temp_amplitude * sine_value
  let base_temp := if s.is_raining then base_temp - s.rain_intensity * 5 else base_temp
  round2 (base_temp + d.temp_noise)

/-- `_calculate_humidity` (lines 143-170). -/
def calculate_humidity (sinPhase : ℚ → ℚ) (cfg : SimulationConfig)
    (d : TickDraws) (s : WeatherState) : ℚ :=
  let sine_value := - sinPhase (s.virtual_hour - (cfg.humidity_peak_hour : ℚ) + 6)
  let base_humidity := cfg.base_humidity + cfg.humidity_amplitude * sine_value
  let base_humidity :=
    if s.is_raining then min 98 (base_humidity + s.rain_intensity * 20) else base_humidity
  round2 (max 20 (min 100 (base_humidity + d.humidity_noise)))

/-- `_calculate_pressure` (lines 172-199), with the already-updated trend value
passed in (the trend update itself happens in `update_state` below, mirroring
the in-place mutation of `self._pressure_trend`). -/
def calculate_pressure (cfg : SimulationConfig) (trend : ℚ) (s : WeatherState) : ℚ :=
  let pressure_change := trend * (1/10)
  let new_pressure := s.pressure + pressure_change
  let min_pressure := cfg.base_pressure - cfg.pressure_drift_range
  let max_pressure := cfg.base_pressure + cfg.pressure_drift_range
  let new_pressure :=
    if new_pressure < cfg.base_pressure then new_pressure + 5/100
    else if cfg.base_pressure < new_pressure then new_pressure - 5/100
    else new_pressure
  round2 (max min_pressure (min max_pressure new_pressure))

/-- `_calculate_soil_moisture` (lines 201-230). -/
def calculate_soil_moisture (cfg : SimulationConfig) (s : WeatherState) : ℚ :=
  let new_moisture :=
    if s.is_raining then
      min cfg.rain_moisture_spike (s.soil_moisture + s.rain_intensity * 5)
    else
      let m := s.soil_moisture * cfg.decay_rate
      if 30 < s.temperature then m - (s.temperature - 30) * cfg.evaporation_factor else m
  round2 (max 0 (min 100 new_moisture))

/-- `_check_rain_conditions` (lines 232-269).  Returns
`(should_rain, rain_intensity, rain_ticks_remaining)`: the source mutates
`state.rain_ticks_remaining` when rain starts, so the possibly-updated value is
the third component. -/
def check_rain_conditions (cfg : SimulationConfig) (d : TickDraws)
    (s : WeatherState) : Bool × ℚ × ℤ :=
  if s.is_raining then
    if 0 < s.rain_ticks_remaining then
      let new_intensity := s.rain_intensity + d.intensity_noise
      (true, max (1/10) (min 1 new_intensity), s.rain_ticks_remaining)
    else
      (false, 0, s.rain_ticks_remaining)
  else
    let humidity_factor := max 0 ((s.humidity - cfg.rain_humidity_threshold) / 15)
    let pressure_factor := max 0 ((cfg.rain_pressure_threshold - s.pressure) / 20)
    let rain_probability :=
      cfg.rain_base_probability + humidity_factor * (1/10) + pressure_factor * (1/10)
    if d.start_roll < rain_probability then
      (true, d.start_intensity, d.start_duration)
    else
      (false, 0, s.rain_ticks_remaining)

/-- `_check_alerts` (lines 271-331): the four threshold rules, in source
order. -/
def check_alerts (s : WeatherState) : List AlertBase :=
  (if s.soil_moisture < 30 then
      [{ type := AlertType.CRITICAL_DRY,
         severity := if s.soil_moisture < 20 then AlertSeverity.high else AlertSeverity.medium,
         threshold_value := 30, actual_value := s.soil_moisture }]
    else [])
  ++ (if s.pressure < 990 then
      [{ type := AlertType.STORM_WARNING, severity := AlertSeverity.high,
         threshold_value := 990, actual_value := s.pressure }]
    else [])
  ++ (if 38 < s.temperature then
      [{ type := AlertType.HEAT_WARNING, severity := AlertSeverity.medium,
         threshold_value := 38, actual_value := s.temperature }]
    else [])
  ++ (if s.temperature < 2 then
      [{ type := AlertType.FROST_WARNING, severity := AlertSeverity.critical,
         threshold_value := 2, actual_value := s.temperature }]
    else [])

/-- `_advance_time` (lines 333-346). -/
def advance_time (cfg : SimulationConfig) (s : WeatherState) : WeatherState :=
  let s1 := { s with tick_count := s.tick_count + 1 }
  let vh := s1.virtual_hour + 1 / (cfg.ticks_per_virtual_hour : ℚ)
  let s2 := { s1 with virtual_hour := if 24 ≤ vh then 0 else vh }
  if 0 < s2.rain_ticks_remaining then
    { s2 with rain_ticks_remaining := s2.rain_ticks_remaining - 1 }
  else s2

/-- `update_state` (lines 348-391): one simulation tick, in source order.
The returned `SensorReading` snapshot is not modelled (no claim uses it). -/
def WeatherSimulator.update_state (e : WeatherSimulator) (sinPhase : ℚ → ℚ)
    (d : TickDraws) : WeatherSimulator :=
  let cfg := e.config
  let r := check_rain_conditions cfg d e.state
  let s1 := { e.state with
    is_raining := r.1, rain_intensity := r.2.1, rain_ticks_remaining := r.2.2,
    rainfall := if r.1 then r.2.1 * (5/2) else 0 }
  let s2 := { s1 with temperature := calculate_diurnal_temperature sinPhase cfg d s1 }
  let s3 := { s2 with humidity := calculate_humidity sinPhase cfg d s2 }
  let trend := max (-1) (min 1 (e.pressure_trend + d.trend_noise))
  let s4 := { s3 with pressure := calculate_pressure cfg trend s3 }
  let s5 := { s4 with soil_moisture := calculate_soil_moisture cfg s4 }
  let s6 := { s5 with wind_speed := min 50 (max 0 (s5.wind_speed + d.wind_noise)) }
  let alerts := check_alerts s6
  let s7 := advance_time cfg s6
  { e with state := s7, alerts := alerts, pressure_trend := trend }

/-- `trigger_rain` (lines 397-409). -/
def WeatherSimulator.trigger_rain (e : WeatherSimulator) (intensity : ℚ)
    (duration : ℤ) : WeatherSimulator :=
  { e with state := { e.state with
      is_raining := true,
      rain_intensity := max (1/10) (min 1 intensity),
      rain_ticks_remaining := duration,
      humidity := min 98 (e.state.humidity + 20),
      temperature := e.state.temperature - 3 } }

/-- `trigger_drought` (lines 411-417). -/
def WeatherSimulator.trigger_drought (e : WeatherSimulator) : WeatherSimulator :=
  { e with state := { e.state with
      soil_moisture := 10, humidity := 30,
      is_raining := false, rain_intensity := 0, rain_ticks_remaining := 0 } }

/-- Python `x % 24` on a float `x` (result in `[0,24)` for any input). -/
def qmod24 (x : ℚ) : ℚ := x - 24 * ⌊x / 24⌋

/-- The `/time-jump` endpoint (`app/routers/simulation.py` lines 119-143):
reject `hours ∉ [1,24]` with HTTP 400 before touching the simulator, otherwise
set `virtual_hour := (virtual_hour + hours) % 24` and run one ordinary
`update_state` tick.  The raised `HTTPException` is modelled as
`Except.error` carrying the detail string; on the error path the simulator is
not modified (no successor state is produced). -/
def time_jump (sinPhase : ℚ → ℚ) (d : TickDraws) (hours : ℤ)
    (e : WeatherSimulator) : Except String WeatherSimulator :=
  if hours < 1 ∨ 24 < hours then
    Except.error "Hours must be between 1 and 24"
  else
    let e1 := { e with state :=
      { e.state with virtual_hour := qmod24 (e.state.virtual_hour + (hours : ℚ)) } }
    Except.ok (e1.update_state sinPhase d)

/-- Reachability of a simulator configuration from the fresh engine
(`WeatherSimulator()` with default config, as created by `get_simulator`),
under any interleaving of ticks and the four control operations, with every
random draw constrained exactly as the source's generator guarantees
(`random.random() ∈ [0,1)`, `random.randint(min,max) ∈ [min,max]`,
`random.uniform(0.3,1.0) ∈ [0.3,1.0]`).  The parameter `P` restricts the
`duration` arguments passed to `trigger_rain`; `P := fun _ => True` is the
raw interface, which accepts any integer. -/
inductive ReachableD (sinPhase : ℚ → ℚ) (P : ℤ → Prop) : WeatherSimulator → Prop where
  | init : ReachableD sinPhase P (WeatherSimulator.init none)
  | tick (e : WeatherSimulator) (d : TickDraws)
      (hroll : 0 ≤ d.start_roll ∧ d.start_roll < 1)
      (hdur : e.config.rain_duration_min ≤ d.start_duration ∧
        d.start_duration ≤ e.config.rain_duration_max)
      (hint : 3/10 ≤ d.start_intensity ∧ d.start_intensity ≤ 1) :
      ReachableD sinPhase P e → ReachableD sinPhase P (e.update_state sinPhase d)
  | rain (e : WeatherSimulator) (intensity : ℚ) (duration : ℤ) (hP : P duration) :
      ReachableD sinPhase P e → ReachableD sinPhase P (e.trigger_rain intensity duration)
  | drought (e : WeatherSimulator) :
      ReachableD sinPhase P e → ReachableD sinPhase P e.trigger_drought
  | reset (e : WeatherSimulator) :
      ReachableD sinPhase P e → ReachableD sinPhase P e.reset
  | jump (e e' : WeatherSimulator) (d : TickDraws) (hours : ℤ)
      (hroll : 0 ≤ d.start_roll ∧ d.start_roll < 1)
      (hdur : e.config.rain_duration_min ≤ d.start_duration ∧
        d.start_duration ≤ e.config.rain_duration_max)
      (hint : 3/10 ≤ d.start_intensity ∧ d.start_intensity ≤ 1)
      (hok : time_jump sinPhase d hours e = Except.ok e') :
      ReachableD sinPhase P e → ReachableD sinPhase P e'

/-- Reachability under the raw interface (arbitrary `trigger_rain` duration
arguments, as both the engine method and the REST endpoint accept). -/
def Reachable (sinPhase : ℚ → ℚ) (e : WeatherSimulator) : Prop :=
  ReachableD sinPhase (fun _ => True) e

/-- An alert of the given kind is present in the list. -/
def hasAlert (l : List AlertBase) (t : AlertType) : Prop :=
  ∃ al ∈ l, al.type = t

/-- The configuration-validity predicate described by the spec (§3 invariant
and §7 error taxonomy): decay rate in `(0,1)`, duration bounds ordered, all
amplitude/rate fields non-negative.  The source defines no such check and no
`ConfigurationError` type anywhere in the repository; this definition follows
the spec's words, for comparison with the source's (total, unvalidated)
constructor. -/
def specValidConfig (c : SimulationConfig) : Prop :=
  (0 < c.decay_rate ∧ c.decay_rate < 1) ∧
  c.rain_duration_min ≤ c.rain_duration_max ∧
  0 ≤ c.temp_amplitude ∧ 0 ≤ c.humidity_amplitude ∧ 0 ≤ c.temp_noise ∧
  0 ≤ c.evaporation_factor ∧ 0 ≤ c.rain_base_probability

/-- The diurnal temperature formula of `_calculate_diurnal_temperature`
(line 125-131), ignoring noise and rain cooling, translated literally over `ℝ`:
`base + amplitude * sin((hour - peak_hour + 6) * (2π/24))`. -/
noncomputable def diurnal_base_temperature (base amplitude peak hour : ℝ) : ℝ :=
  base + amplitude * Real.sin ((hour - peak + 6) * (2 * Real.pi / 24))

/-! ### Helper lemmas about rounding -/

theorem le_round2 {m : ℤ} {x : ℚ} (h : (m : ℚ) / 100 ≤ x) : (m : ℚ) / 100 ≤ round2 x := by
  unfold round2
  have hx : (m : ℚ) ≤ x * 100 := by linarith
  have h1 : m ≤ round (x * 100) := by
    rw [round_eq]
    exact Int.le_floor.mpr (by linarith)
  have h2 : (m : ℚ) ≤ ((round (x * 100) : ℤ) : ℚ) := by exact_mod_cast h1
  linarith

theorem round2_le {M : ℤ} {x : ℚ} (h : x ≤ (M : ℚ) / 100) : round2 x ≤ (M : ℚ) / 100 := by
  unfold round2
  have hx : x * 100 ≤ (M : ℚ) := by linarith
  have h1 : round (x * 100) ≤ M := by
    rw [round_eq]
    have : ⌊x * 100 + 1 / 2⌋ < M + 1 := Int.floor_lt.mpr (by push_cast; linarith)
    omega
  have h2 : ((round (x * 100) : ℤ) : ℚ) ≤ (M : ℚ) := by exact_mod_cast h1
  linarith

/-- Rounded decay never exceeds the original centi-valued moisture:
for `x = k/100` with `k ≥ 0`, `round2 (x * (995/1000)) ≤ x`. -/
theorem round2_decay_le {k : ℤ} (hk : 0 ≤ k) :
    round2 ((k : ℚ) / 100 * (995/1000)) ≤ (k : ℚ) / 100 := by
  unfold round2
  have hk' : (0 : ℚ) ≤ (k : ℚ) := by exact_mod_cast hk
  have h1 : round ((k : ℚ) / 100 * (995/1000) * 100) ≤ k := by
    rw [round_eq]
    have : ⌊(k : ℚ) / 100 * (995/1000) * 100 + 1 / 2⌋ < k + 1 := by
      apply Int.floor_lt.mpr
      push_cast
      nlinarith
    omega
  have h2 : ((round ((k : ℚ) / 100 * (995/1000) * 100) : ℤ) : ℚ) ≤ (k : ℚ) := by
    exact_mod_cast h1
  linarith

/-! ### Field-tracking lemmas for `_advance_time` -/

theorem advance_time_temperature (cfg : SimulationConfig) (s : WeatherState) :
    (advance_time cfg s).temperature = s.temperature := by
  simp only [advance_time]
  split <;> rfl

theorem advance_time_humidity (cfg : SimulationConfig) (s : WeatherState) :
    (advance_time cfg s).humidity = s.humidity := by
  simp only [advance_time]
  split <;> rfl

theorem advance_time_pressure (cfg : SimulationConfig) (s : WeatherState) :
    (advance_time cfg s).pressure = s.pressure := by
  simp only [advance_time]
  split <;> rfl

theorem advance_time_soil_moisture (cfg : SimulationConfig) (s : WeatherState) :
    (advance_time cfg s).soil_moisture = s.soil_moisture := by
  simp only [advance_time]
  split <;> rfl

theorem advance_time_wind_speed (cfg : SimulationConfig) (s : WeatherState) :
    (advance_time cfg s).wind_speed = s.wind_speed := by
  simp only [advance_time]
  split <;> rfl

theorem advance_time_is_raining (cfg : SimulationConfig) (s : WeatherState) :
    (advance_time cfg s).is_raining = s.is_raining := by
  simp only [advance_time]
  split <;> rfl

theorem advance_time_rain_intensity (cfg : SimulationConfig) (s : WeatherState) :
    (advance_time cfg s).rain_intensity = s.rain_intensity := by
  simp only [advance_time]
  split <;> rfl

theorem advance_time_tick_count (cfg : SimulationConfig) (s : WeatherState) :
    (advance_time cfg s).tick_count = s.tick_count + 1 := by
  simp only [advance_time]
  split <;> rfl

theorem advance_time_virtual_hour (cfg : SimulationConfig) (s : WeatherState) :
    (advance_time cfg s).virtual_hour =
      (if 24 ≤ s.virtual_hour + 1 / (cfg.ticks_per_virtual_hour : ℚ) then 0
       else s.virtual_hour + 1 / (cfg.ticks_per_virtual_hour : ℚ)) := by
  simp only [advance_time]
  split <;> rfl

theorem advance_time_rain_ticks_remaining (cfg : SimulationConfig) (s : WeatherState) :
    (advance_time cfg s).rain_ticks_remaining =
      (if 0 < s.rain_ticks_remaining then s.rain_ticks_remaining - 1
       else s.rain_ticks_remaining) := by
  simp only [advance_time]
  split <;> simp_all

/-! ### Bounds of the per-tick calculators -/

theorem calculate_humidity_bounds (sinPhase : ℚ → ℚ) (cfg : SimulationConfig)
    (d : TickDraws) (s : WeatherState) :
    20 ≤ calculate_humidity sinPhase cfg d s ∧ calculate_humidity sinPhase cfg d s ≤ 100 := by
  unfold calculate_humidity
  constructor
  · have h20 : ((2000 : ℤ) : ℚ) / 100 = 20 := by norm_num
    rw [← h20]
    exact le_round2 (by rw [h20]; exact le_max_left _ _)
  · have h100 : ((10000 : ℤ) : ℚ) / 100 = 100 := by norm_num
    rw [← h100]
    refine round2_le ?_
    rw [h100]
    exact max_le (by norm_num) (min_le_left _ _)

theorem calculate_soil_moisture_bounds (cfg : SimulationConfig) (s : WeatherState) :
    0 ≤ calculate_soil_moisture cfg s ∧ calculate_soil_moisture cfg s ≤ 100 := by
  unfold calculate_soil_moisture
  constructor
  · have h0 : ((0 : ℤ) : ℚ) / 100 = 0 := by norm_num
    rw [← h0]
    exact le_round2 (by rw [h0]; exact le_max_left _ _)
  · have h100 : ((10000 : ℤ) : ℚ) / 100 = 100 := by norm_num
    rw [← h100]
    refine round2_le ?_
    rw [h100]
    exact max_le (by norm_num) (min_le_left _ _)

/-- The soil-moisture result is always an integer number of hundredths. -/
theorem calculate_soil_moisture_cent (cfg : SimulationConfig) (s : WeatherState) :
    ∃ k : ℤ, calculate_soil_moisture cfg s = (k : ℚ) / 100 :=
  ⟨_, rfl⟩

/-- The humidity result is always an integer number of hundredths. -/
theorem calculate_humidity_cent (sinPhase : ℚ → ℚ) (cfg : SimulationConfig)
    (d : TickDraws) (s : WeatherState) :
    ∃ k : ℤ, calculate_humidity sinPhase cfg d s = (k : ℚ) / 100 :=
  ⟨_, rfl⟩

/-- In dry, non-hot conditions the (clamped, rounded) soil moisture never
exceeds its previous centi-valued, `[0,100]`-ranged value. -/
theorem calculate_soil_moisture_decay_le (cfg : SimulationConfig) (s : WeatherState)
    (hcfg : cfg = {}) (hrain : s.is_raining = false) (htemp : s.temperature ≤ 30)
    {k : ℤ} (hs : s.soil_moisture = (k : ℚ) / 100) (hk0 : 0 ≤ k) (hk1 : s.soil_moisture ≤ 100) :
    calculate_soil_moisture cfg s ≤ s.soil_moisture := by
  subst hcfg
  unfold calculate_soil_moisture
  rw [hrain]
  simp only [Bool.false_eq_true, if_false, if_neg (not_lt.mpr htemp)]
  have hk0' : (0 : ℚ) ≤ (k : ℚ) := by exact_mod_cast hk0
  have hnn : 0 ≤ s.soil_moisture * (995/1000 : ℚ) := by
    rw [hs]; positivity
  have hle : s.soil_moisture * (995/1000 : ℚ) ≤ 100 := by nlinarith
  have hmin : min (100 : ℚ) (s.soil_moisture * (995/1000)) = s.soil_moisture * (995/1000) :=
    min_eq_right hle
  rw [hmin, max_eq_right hnn, hs]
  exact round2_decay_le hk0

/-- Behaviour of `_check_rain_conditions`: intensity consistency of the
returned triple, and the provenance of the returned duration. -/
theorem check_rain_conditions_spec (cfg : SimulationConfig) (d : TickDraws)
    (s : WeatherState) (hint : 3/10 ≤ d.start_intensity ∧ d.start_intensity ≤ 1) :
    ((check_rain_conditions cfg d s).1 = false → (check_rain_conditions cfg d s).2.1 = 0) ∧
    ((check_rain_conditions cfg d s).1 = true →
      1/10 ≤ (check_rain_conditions cfg d s).2.1 ∧ (check_rain_conditions cfg d s).2.1 ≤ 1) ∧
    ((check_rain_conditions cfg d s).2.2 = s.rain_ticks_remaining ∨
      (check_rain_conditions cfg d s).2.2 = d.start_duration) := by
  unfold check_rain_conditions
  split
  · dsimp only
    split
    · exact ⟨by simp, fun _ => ⟨le_max_left _ _, max_le (by norm_num) (min_le_left _ _)⟩,
        Or.inl rfl⟩
    · exact ⟨fun _ => rfl, by simp, Or.inl rfl⟩
  · dsimp only
    split
    · exact ⟨by simp, fun _ => ⟨by linarith [hint.1], hint.2⟩, Or.inr rfl⟩
    · exact ⟨fun _ => rfl, by simp, Or.inl rfl⟩

/-! ### The reachable-state invariant -/

/-- The invariant holding for every simulator reachable from the fresh engine:
the default config is in force, humidity / soil moisture / wind speed are in
their documented ranges, soil moisture is an integer number of hundredths,
rain intensity is zero when dry and in `[0.1, 1]` when raining, and the
virtual hour lies in `[0, 24)`. -/
structure EngineOK (e : WeatherSimulator) : Prop where
  cfg : e.config = {}
  hum_lb : 0 ≤ e.state.humidity
  hum_ub : e.state.humidity ≤ 100
  soil_lb : 0 ≤ e.state.soil_moisture
  soil_ub : e.state.soil_moisture ≤ 100
  soil_cent : ∃ k : ℤ, e.state.soil_moisture = (k : ℚ) / 100
  wind_lb : 0 ≤ e.state.wind_speed
  wind_ub : e.state.wind_speed ≤ 50
  rain_off : e.state.is_raining = false → e.state.rain_intensity = 0
  rain_on : e.state.is_raining = true →
    1/10 ≤ e.state.rain_intensity ∧ e.state.rain_intensity ≤ 1
  vh_lb : 0 ≤ e.state.virtual_hour
  vh_ub : e.state.virtual_hour < 24

theorem engineOK_init : EngineOK (WeatherSimulator.init none) :=
  ⟨rfl, by norm_num [WeatherSimulator.init], by norm_num [WeatherSimulator.init],
   by norm_num [WeatherSimulator.init], by norm_num [WeatherSimulator.init],
   ⟨5000, by norm_num [WeatherSimulator.init]⟩,
   by norm_num [WeatherSimulator.init], by norm_num [WeatherSimulator.init],
   fun _ => rfl, by norm_num [WeatherSimulator.init],
   by norm_num [WeatherSimulator.init], by norm_num [WeatherSimulator.init]⟩

/-- Bounds of the wrapped virtual hour after one default-config time step. -/
theorem vh_step_bounds {v : ℚ} (h0 : 0 ≤ v) :
    0 ≤ (if 24 ≤ v + 1/30 then (0 : ℚ) else v + 1/30) ∧
    (if 24 ≤ v + 1/30 then (0 : ℚ) else v + 1/30) < 24 := by
  by_cases h : 24 ≤ v + 1/30
  · rw [if_pos h]
    norm_num
  · rw [if_neg h]
    push_neg at h
    exact ⟨by linarith, by linarith⟩

theorem engineOK_update_state (sinPhase : ℚ → ℚ) (d : TickDraws) (e : WeatherSimulator)
    (hint : 3/10 ≤ d.start_intensity ∧ d.start_intensity ≤ 1)
    (h : EngineOK e) : EngineOK (e.update_state sinPhase d) := by
  obtain ⟨hr0, hr1, hrd⟩ := check_rain_conditions_spec e.config d e.state hint
  simp only [WeatherSimulator.update_state]
  constructor
  case cfg => exact h.cfg
  case hum_lb =>
    rw [advance_time_humidity]
    exact le_trans (by norm_num) (calculate_humidity_bounds sinPhase e.config d _).1
  case hum_ub =>
    rw [advance_time_humidity]
    exact (calculate_humidity_bounds sinPhase e.config d _).2
  case soil_lb =>
    rw [advance_time_soil_moisture]
    exact (calculate_soil_moisture_bounds e.config _).1
  case soil_ub =>
    rw [advance_time_soil_moisture]
    exact (calculate_soil_moisture_bounds e.config _).2
  case soil_cent =>
    rw [advance_time_soil_moisture]
    exact calculate_soil_moisture_cent e.config _
  case wind_lb =>
    rw [advance_time_wind_speed]
    have : (0 : ℚ) ≤ max 0 (e.state.wind_speed + d.wind_noise) := le_max_left _ _
    exact le_min (by norm_num) this
  case wind_ub =>
    rw [advance_time_wind_speed]
    exact min_le_left _ _
  case rain_off =>
    rw [advance_time_is_raining, advance_time_rain_intensity]
    exact hr0
  case rain_on =>
    rw [advance_time_is_raining, advance_time_rain_intensity]
    exact hr1
  case vh_lb =>
    rw [advance_time_virtual_hour]
    have h30 : e.config.ticks_per_virtual_hour = 30 := by rw [h.cfg]
    rw [h30]
    push_cast
    exact (vh_step_bounds h.vh_lb).1
  case vh_ub =>
    rw [advance_time_virtual_hour]
    have h30 : e.config.ticks_per_virtual_hour = 30 := by rw [h.cfg]
    rw [h30]
    push_cast
    exact (vh_step_bounds h.vh_lb).2

theorem engineOK_trigger_rain (e : WeatherSimulator) (intensity : ℚ) (duration : ℤ)
    (h : EngineOK e) : EngineOK (e.trigger_rain intensity duration) := by
  simp only [WeatherSimulator.trigger_rain]
  refine ⟨h.cfg, ?_, ?_, h.soil_lb, h.soil_ub, h.soil_cent, h.wind_lb, h.wind_ub,
    ?_, ?_, h.vh_lb, h.vh_ub⟩
  · have := h.hum_lb
    have h1 : (20 : ℚ) ≤ e.state.humidity + 20 := by linarith
    have : (0 : ℚ) ≤ min 98 (e.state.humidity + 20) := le_min (by norm_num) (by linarith)
    exact this
  · have : min (98 : ℚ) (e.state.humidity + 20) ≤ 98 := min_le_left _ _
    linarith
  · intro hfalse
    simp at hfalse
  · intro _
    exact ⟨le_max_left _ _, max_le (by norm_num) (min_le_left _ _)⟩

theorem engineOK_trigger_drought (e : WeatherSimulator) (h : EngineOK e) :
    EngineOK e.trigger_drought := by
  simp only [WeatherSimulator.trigger_drought]
  exact ⟨h.cfg, by norm_num, by norm_num, by norm_num, by norm_num,
    ⟨1000, by norm_num⟩, h.wind_lb, h.wind_ub, fun _ => rfl, by simp,
    h.vh_lb, h.vh_ub⟩

theorem engineOK_reset (e : WeatherSimulator) (h : EngineOK e) : EngineOK e.reset := by
  simp only [WeatherSimulator.reset]
  exact ⟨h.cfg, by norm_num, by norm_num, by norm_num, by norm_num,
    ⟨5000, by norm_num⟩, by norm_num, by norm_num, fun _ => rfl, by simp,
    by norm_num, by norm_num⟩

theorem qmod24_bounds (x : ℚ) : 0 ≤ qmod24 x ∧ qmod24 x < 24 := by
  unfold qmod24
  constructor
  · have := Int.floor_le (x / 24)
    have h24 : (0 : ℚ) < 24 := by norm_num
    nlinarith [Int.floor_le (x / 24)]
  · have := Int.lt_floor_add_one (x / 24)
    nlinarith [Int.lt_floor_add_one (x / 24)]

theorem engineOK_time_jump (sinPhase : ℚ → ℚ) (d : TickDraws) (hours : ℤ)
    (e e' : WeatherSimulator)
    (hint : 3/10 ≤ d.start_intensity ∧ d.start_intensity ≤ 1)
    (hok : time_jump sinPhase d hours e = Except.ok e')
    (h : EngineOK e) : EngineOK e' := by
  unfold time_jump at hok
  split at hok
  · exact absurd hok (by simp)
  · simp only [Except.ok.injEq] at hok
    subst hok
    apply engineOK_update_state sinPhase d _ hint
    obtain ⟨hq0, hq1⟩ := qmod24_bounds (e.state.virtual_hour + (hours : ℚ))
    exact ⟨h.cfg, h.hum_lb, h.hum_ub, h.soil_lb, h.soil_ub, h.soil_cent,
      h.wind_lb, h.wind_ub, h.rain_off, h.rain_on, hq0, hq1⟩

/-- Every reachable simulator satisfies the invariant, for any duration
policy `P`. -/
theorem reachable_engineOK {sinPhase : ℚ → ℚ} {P : ℤ → Prop} {e : WeatherSimulator}
    (h : ReachableD sinPhase P e) : EngineOK e := by
  induction h with
  | init => exact engineOK_init
  | tick e d hroll hdur hint _ ih => exact engineOK_update_state sinPhase d e hint ih
  | rain e intensity duration hP _ ih => exact engineOK_trigger_rain e intensity duration ih
  | drought e _ ih => exact engineOK_trigger_drought e ih
  | reset e _ ih => exact engineOK_reset e ih
  | jump e e' d hours hroll hdur hint hok _ ih =>
    exact engineOK_time_jump sinPhase d hours e e' hint hok ih

/-- The duration returned by `_check_rain_conditions` is either the stored one
or the freshly drawn one. -/
theorem check_rain_conditions_remaining (cfg : SimulationConfig) (d : TickDraws)
    (s : WeatherState) :
    (check_rain_conditions cfg d s).2.2 = s.rain_ticks_remaining ∨
    (check_rain_conditions cfg d s).2.2 = d.start_duration := by
  unfold check_rain_conditions
  split
  · dsimp only
    split
    · exact Or.inl rfl
    · exact Or.inl rfl
  · dsimp only
    split
    · exact Or.inr rfl
    · exact Or.inl rfl

/-- One tick keeps `rain_ticks_remaining` non-negative (default config, any
draw outcome with an in-range drawn duration). -/
theorem update_state_remaining_nonneg (sinPhase : ℚ → ℚ) (d : TickDraws)
    (e : WeatherSimulator) (hcfg : e.config = {})
    (hdur : e.config.rain_duration_min ≤ d.start_duration)
    (h0 : 0 ≤ e.state.rain_ticks_remaining) :
    0 ≤ (e.update_state sinPhase d).state.rain_ticks_remaining := by
  have hdur10 : (10 : ℤ) ≤ d.start_duration := by
    rw [hcfg] at hdur
    exact hdur
  have hrd := check_rain_conditions_remaining e.config d e.state
  simp only [WeatherSimulator.update_state]
  rw [advance_time_rain_ticks_remaining]
  rcases hrd with hcase | hcase <;>
    [(have hx : 0 ≤ (check_rain_conditions e.config d e.state).2.2 := by rw [hcase]; exact h0);
     (have hx : 0 ≤ (check_rain_conditions e.config d e.state).2.2 := by rw [hcase]; omega)] <;>
    · show 0 ≤ if 0 < (check_rain_conditions e.config d e.state).2.2 then
        (check_rain_conditions e.config d e.state).2.2 - 1
        else (check_rain_conditions e.config d e.state).2.2
      split <;> omega

/-- Every simulator reachable under non-negative `trigger_rain` durations has
a non-negative `rain_ticks_remaining`. -/
theorem reachable_remaining_nonneg {sinPhase : ℚ → ℚ} {e : WeatherSimulator}
    (h : ReachableD sinPhase (fun n => 0 ≤ n) e) :
    0 ≤ e.state.rain_ticks_remaining := by
  induction h with
  | init => norm_num [WeatherSimulator.init]
  | tick e d hroll hdur hint hprev ih =>
    exact update_state_remaining_nonneg sinPhase d e (reachable_engineOK hprev).cfg hdur.1 ih
  | rain e intensity duration hP _ ih => exact hP
  | drought e _ ih => norm_num [WeatherSimulator.trigger_drought]
  | reset e _ ih => norm_num [WeatherSimulator.reset]
  | jump e e' d hours hroll hdur hint hok hprev ih =>
    unfold time_jump at hok
    split at hok
    · exact absurd hok (by simp)
    · simp only [Except.ok.injEq] at hok
      subst hok
      exact update_state_remaining_nonneg sinPhase d _ (reachable_engineOK hprev).cfg hdur.1 ih

/-! ### Behaviour of the alert evaluator -/

theorem hasAlert_check_alerts (s : WeatherState) :
    (hasAlert (check_alerts s) AlertType.STORM_WARNING ↔ s.pressure < 990) ∧
    (hasAlert (check_alerts s) AlertType.FROST_WARNING ↔ s.temperature < 2) ∧
    (hasAlert (check_alerts s) AlertType.HEAT_WARNING ↔ 38 < s.temperature) ∧
    (hasAlert (check_alerts s) AlertType.CRITICAL_DRY ↔ s.soil_moisture < 30) := by
  unfold check_alerts hasAlert
  split_ifs <;> simp_all

theorem check_alerts_dry_severity (s : WeatherState) :
    ∀ al ∈ check_alerts s, al.type = AlertType.CRITICAL_DRY →
      al.severity =
        (if s.soil_moisture < 20 then AlertSeverity.high else AlertSeverity.medium) := by
  unfold check_alerts
  split_ifs <;> intro al hal htype <;> aesop

theorem check_alerts_kinds (s : WeatherState) :
    ∀ al ∈ check_alerts s,
      al.type = AlertType.CRITICAL_DRY ∨ al.type = AlertType.STORM_WARNING ∨
      al.type = AlertType.HEAT_WARNING ∨ al.type = AlertType.FROST_WARNING := by
  unfold check_alerts
  split_ifs <;> intro al hal <;> aesop

theorem check_alerts_once (s : WeatherState) (t : AlertType) :
    (check_alerts s).countP (fun al => al.type == t) ≤ 1 := by
  unfold check_alerts
  rcases t <;> split_ifs <;>
    simp [List.countP_append, List.countP_cons, List.countP_nil]

/-! ### Generic wrap-around helpers -/

/-- The wrapped virtual hour either advanced by the step or wrapped to 0. -/
theorem wrap_or_advance (v step : ℚ) :
    ((if 24 ≤ v + step then (0 : ℚ) else v + step) = v + step ∧ v + step < 24) ∨
    ((if 24 ≤ v + step then (0 : ℚ) else v + step) = 0 ∧ 24 ≤ v + step) := by
  by_cases h : 24 ≤ v + step
  · exact Or.inr ⟨if_pos h, h⟩
  · exact Or.inl ⟨if_neg h, by linarith [not_le.mp h]⟩

/-! ### Values of the pure diurnal curve at particular hours (default config) -/

theorem diurnal_base_temperature_at_fourteen :
    diurnal_base_temperature 28 8 14 14 = 36 := by
  unfold diurnal_base_temperature
  have harg : ((14 : ℝ) - 14 + 6) * (2 * Real.pi / 24) = Real.pi / 2 := by ring
  rw [harg, Real.sin_pi_div_two]
  norm_num

theorem diurnal_base_temperature_at_two :
    diurnal_base_temperature 28 8 14 2 = 20 := by
  unfold diurnal_base_temperature
  have harg : ((2 : ℝ) - 14 + 6) * (2 * Real.pi / 24) = -(Real.pi / 2) := by ring
  rw [harg, Real.sin_neg, Real.sin_pi_div_two]
  norm_num

/-! ### The claims -/

/-- C1: after any tick (`update_state`), the stored alert list contains a
STORM_WARNING alert iff the post-tick pressure is below 990, a FROST_WARNING
alert iff the post-tick temperature is below 2, a HEAT_WARNING alert iff the
post-tick temperature is above 38, and a CRITICAL_DRY alert iff the post-tick
soil moisture is below 30, with the CRITICAL_DRY severity HIGH when soil
moisture is below 20 and MEDIUM otherwise; only these four kinds appear and
each kind appears at most once. -/
theorem C1_alerts_iff_thresholds (sinPhase : ℚ → ℚ) (d : TickDraws)
    (e : WeatherSimulator) :
    (hasAlert (e.update_state sinPhase d).alerts AlertType.STORM_WARNING ↔
      (e.update_state sinPhase d).state.pressure < 990) ∧
    (hasAlert (e.update_state sinPhase d).alerts AlertType.FROST_WARNING ↔
      (e.update_state sinPhase d).state.temperature < 2) ∧
    (hasAlert (e.update_state sinPhase d).alerts AlertType.HEAT_WARNING ↔
      38 < (e.update_state sinPhase d).state.temperature) ∧
    (hasAlert (e.update_state sinPhase d).alerts AlertType.CRITICAL_DRY ↔
      (e.update_state sinPhase d).state.soil_moisture < 30) ∧
    (∀ al ∈ (e.update_state sinPhase d).alerts, al.type = AlertType.CRITICAL_DRY →
      al.severity =
        (if (e.update_state sinPhase d).state.soil_moisture < 20 then AlertSeverity.high
         else AlertSeverity.medium)) ∧
    (∀ al ∈ (e.update_state sinPhase d).alerts,
      al.type = AlertType.CRITICAL_DRY ∨ al.type = AlertType.STORM_WARNING ∨
      al.type = AlertType.HEAT_WARNING ∨ al.type = AlertType.FROST_WARNING) ∧
    (∀ t : AlertType,
      ((e.update_state sinPhase d).alerts.countP (fun al => al.type == t)) ≤ 1) := by
  simp only [WeatherSimulator.update_state, advance_time_pressure,
    advance_time_temperature, advance_time_soil_moisture]
  exact ⟨(hasAlert_check_alerts _).1, (hasAlert_check_alerts _).2.1,
    (hasAlert_check_alerts _).2.2.1, (hasAlert_check_alerts _).2.2.2,
    check_alerts_dry_severity _, check_alerts_kinds _, check_alerts_once _⟩

/-- C2 (original, refuted): the fresh engine followed by
`trigger_rain(intensity = 0.8, duration = -1)` — an argument the interface
accepts — reaches a state with `rain_ticks_remaining = -1 < 0`. -/
theorem C2_counterexample :
    ReachableD (fun _ => 0) (fun _ => True)
      ((WeatherSimulator.init none).trigger_rain (4/5) (-1)) ∧
    ((WeatherSimulator.init none).trigger_rain (4/5) (-1)).state.rain_ticks_remaining < 0 :=
  ⟨ReachableD.rain _ _ _ trivial ReachableD.init,
   by norm_num [WeatherSimulator.trigger_rain, WeatherSimulator.init]⟩

/-- C2 (amended): for every state reachable from the fresh engine by any
sequence of tick, forceRain, forceDrought, reset and timeJump operations in
which every forceRain duration argument is non-negative (other arguments
arbitrary): rain intensity is 0 when not raining and in `[0.1, 1]` when
raining, and `rain_ticks_remaining ≥ 0`. -/
theorem C2_amended_rain_invariants (sinPhase : ℚ → ℚ) (e : WeatherSimulator)
    (h : ReachableD sinPhase (fun n => 0 ≤ n) e) :
    (e.state.is_raining = false → e.state.rain_intensity = 0) ∧
    (e.state.is_raining = true →
      1/10 ≤ e.state.rain_intensity ∧ e.state.rain_intensity ≤ 1) ∧
    0 ≤ e.state.rain_ticks_remaining :=
  ⟨(reachable_engineOK h).rain_off, (reachable_engineOK h).rain_on,
   reachable_remaining_nonneg h⟩

theorem C2_amended_rain_invariants_witness :
    ((WeatherSimulator.init none).state.is_raining = false →
      (WeatherSimulator.init none).state.rain_intensity = 0) ∧
    ((WeatherSimulator.init none).state.is_raining = true →
      1/10 ≤ (WeatherSimulator.init none).state.rain_intensity ∧
      (WeatherSimulator.init none).state.rain_intensity ≤ 1) ∧
    0 ≤ (WeatherSimulator.init none).state.rain_ticks_remaining :=
  C2_amended_rain_invariants (fun _ => 0) (WeatherSimulator.init none) ReachableD.init

/-- C3: for every state reachable from the fresh engine by any sequence of
tick and override operations mutating along any outcome of the random draws,
humidity and soil moisture stay in `[0, 100]` and wind speed stays in
`[0, 50]`. -/
theorem C3_bounded_state (sinPhase : ℚ → ℚ) (e : WeatherSimulator)
    (h : Reachable sinPhase e) :
    (0 ≤ e.state.humidity ∧ e.state.humidity ≤ 100) ∧
    (0 ≤ e.state.soil_moisture ∧ e.state.soil_moisture ≤ 100) ∧
    (0 ≤ e.state.wind_speed ∧ e.state.wind_speed ≤ 50) := by
  have k := reachable_engineOK h
  exact ⟨⟨k.hum_lb, k.hum_ub⟩, ⟨k.soil_lb, k.soil_ub⟩, ⟨k.wind_lb, k.wind_ub⟩⟩

theorem C3_bounded_state_witness :
    (0 ≤ (WeatherSimulator.init none).state.humidity ∧
      (WeatherSimulator.init none).state.humidity ≤ 100) ∧
    (0 ≤ (WeatherSimulator.init none).state.soil_moisture ∧
      (WeatherSimulator.init none).state.soil_moisture ≤ 100) ∧
    (0 ≤ (WeatherSimulator.init none).state.wind_speed ∧
      (WeatherSimulator.init none).state.wind_speed ≤ 50) :=
  C3_bounded_state (fun _ => 0) (WeatherSimulator.init none) ReachableD.init

/-- C4: for any tick from a reachable state whose resulting state has
`is_raining = false` and temperature at most 30 °C, the soil moisture after
the tick is at most the soil moisture before it, for every outcome of the
random draws. -/
theorem C4_soil_decay (sinPhase : ℚ → ℚ) (d : TickDraws) (e : WeatherSimulator)
    (h : Reachable sinPhase e)
    (hrain : (e.update_state sinPhase d).state.is_raining = false)
    (htemp : (e.update_state sinPhase d).state.temperature ≤ 30) :
    (e.update_state sinPhase d).state.soil_moisture ≤ e.state.soil_moisture := by
  have k := reachable_engineOK h
  obtain ⟨kk, hs⟩ := k.soil_cent
  have hk0 : 0 ≤ kk := by
    have hlb := k.soil_lb
    rw [hs] at hlb
    have : (0 : ℚ) ≤ (kk : ℚ) := by linarith
    exact_mod_cast this
  simp only [WeatherSimulator.update_state] at hrain htemp ⊢
  rw [advance_time_is_raining] at hrain
  rw [advance_time_temperature] at htemp
  rw [advance_time_soil_moisture]
  exact calculate_soil_moisture_decay_le e.config _ k.cfg hrain htemp hs hk0 k.soil_ub

theorem C4_soil_decay_witness :
    ((WeatherSimulator.init none).update_state (fun _ => 0) {}).state.is_raining = false ∧
    ((WeatherSimulator.init none).update_state (fun _ => 0) {}).state.temperature ≤ 30 ∧
    ((WeatherSimulator.init none).update_state (fun _ => 0) {}).state.soil_moisture ≤
      (WeatherSimulator.init none).state.soil_moisture := by
  have hrain : ((WeatherSimulator.init none).update_state (fun _ => 0) {}).state.is_raining
      = false := by
    norm_num [WeatherSimulator.init, WeatherSimulator.update_state, check_rain_conditions,
      advance_time]
  have htemp : ((WeatherSimulator.init none).update_state (fun _ => 0) {}).state.temperature
      ≤ 30 := by
    norm_num [WeatherSimulator.init, WeatherSimulator.update_state, check_rain_conditions,
      advance_time, calculate_diurnal_temperature, round2, round_eq]
  exact ⟨hrain, htemp,
    C4_soil_decay (fun _ => 0) {} (WeatherSimulator.init none) ReachableD.init hrain htemp⟩

/-- C5: after any sequence of operations (any simulator value at all),
`reset()` restores the fresh-engine state defaults exactly, empties the alert
list and zeroes the hidden pressure trend. -/
theorem C5_reset_defaults (e : WeatherSimulator) :
    e.reset.state = ({} : WeatherState) ∧
    e.reset.state.temperature = 28 ∧
    e.reset.state.humidity = 65 ∧
    e.reset.state.pressure = 101325/100 ∧
    e.reset.state.soil_moisture = 50 ∧
    e.reset.state.virtual_hour = 6 ∧
    e.reset.state.tick_count = 0 ∧
    e.reset.state.is_raining = false ∧
    e.reset.state.rain_intensity = 0 ∧
    e.reset.state.rain_ticks_remaining = 0 ∧
    e.reset.state.rainfall = 0 ∧
    e.reset.alerts = [] ∧
    e.reset.pressure_trend = 0 :=
  ⟨rfl, rfl, rfl, rfl, rfl, rfl, rfl, rfl, rfl, rfl, rfl, rfl, rfl⟩

/-- C6: `timeJump(hours)` fails with the out-of-range error iff
`hours ∉ [1, 24]` (producing no successor simulator, so the engine state is
untouched on failure), and for in-range hours it sets
`virtual_hour := (virtual_hour + hours) mod 24` and then performs exactly one
ordinary tick. -/
theorem C6_time_jump_spec (sinPhase : ℚ → ℚ) (d : TickDraws) (hours : ℤ)
    (e : WeatherSimulator) :
    (time_jump sinPhase d hours e = Except.error "Hours must be between 1 and 24" ↔
      (hours < 1 ∨ 24 < hours)) ∧
    (1 ≤ hours → hours ≤ 24 →
      time_jump sinPhase d hours e =
        Except.ok
          ((({ e with state :=
              { e.state with virtual_hour := qmod24 (e.state.virtual_hour + (hours : ℚ)) } }
            : WeatherSimulator)).update_state sinPhase d)) := by
  unfold time_jump
  by_cases hc : hours < 1 ∨ 24 < hours
  · rw [if_pos hc]
    exact ⟨⟨fun _ => hc, fun _ => rfl⟩, fun h1 h2 => absurd hc (by omega)⟩
  · rw [if_neg hc]
    exact ⟨⟨fun heq => absurd heq (by simp), fun hh => absurd hh hc⟩, fun _ _ => rfl⟩

theorem C6_time_jump_spec_witness :
    time_jump (fun _ => 0) {} 6 (WeatherSimulator.init none) =
      Except.ok
        ((({ WeatherSimulator.init none with state :=
            { (WeatherSimulator.init none).state with
              virtual_hour := qmod24 ((WeatherSimulator.init none).state.virtual_hour + ((6 : ℤ) : ℚ)) } }
          : WeatherSimulator)).update_state (fun _ => 0) {}) :=
  (C6_time_jump_spec (fun _ => 0) {} 6 (WeatherSimulator.init none)).2
    (by norm_num) (by norm_num)

/-- C7 (original, refuted): constructing the engine with an invalid
configuration (decay rate 3/2 ∉ (0,1)) raises nothing — the constructor is
total and stores the invalid configuration unchanged; no `ConfigurationError`
exists anywhere in the code. -/
def invalidConfig : SimulationConfig := { decay_rate := 3/2 }

theorem C7_counterexample :
    ¬ specValidConfig invalidConfig ∧
    WeatherSimulator.init (some invalidConfig) =
      { config := invalidConfig, state := {}, alerts := [], pressure_trend := 0 } := by
  constructor
  · intro hvc
    have hd := hvc.1.2
    norm_num [invalidConfig] at hd
  · rfl

/-- C7 (amended): construction performs no validation — any configuration
(valid or not by the spec predicate) is accepted unchanged, the fresh default
state is installed, and no error can be raised at construction time (the
constructor is a total function); consequently no configuration error is ever
raised during ticking either (the code defines no `ConfigurationError`). -/
theorem C7_amended_no_validation (c : Option SimulationConfig) :
    (WeatherSimulator.init c).config = c.getD {} ∧
    (WeatherSimulator.init c).state = ({} : WeatherState) ∧
    (WeatherSimulator.init c).alerts = [] ∧
    (WeatherSimulator.init c).pressure_trend = 0 :=
  ⟨rfl, rfl, rfl, rfl⟩

/-- C8 (original, refuted): for the default parameters (base 28, amplitude 8,
peak hour 14) the diurnal curve is strictly lower at hour 2 than at hour 4,
so hour 4 is not its minimum over `[0, 24)`. -/
theorem C8_counterexample :
    diurnal_base_temperature 28 8 14 2 < diurnal_base_temperature 28 8 14 4 := by
  rw [diurnal_base_temperature_at_two]
  unfold diurnal_base_temperature
  have harg : ((4 : ℝ) - 14 + 6) * (2 * Real.pi / 24) = -(Real.pi / 3) := by ring
  rw [harg, Real.sin_neg, Real.sin_pi_div_three]
  have h3 : Real.sqrt 3 < 2 := by
    have hsq : Real.sqrt 3 ^ 2 = 3 := Real.sq_sqrt (by norm_num)
    nlinarith [Real.sqrt_nonneg 3]
  linarith

/-- C8 (amended): ignoring noise and rain cooling, the diurnal temperature
function `base + amplitude * sin((hour - peak + 6) * 2π/24)` with the default
base 28, amplitude 8 and peak hour 14 attains its maximum over
`virtual_hour ∈ [0, 24)` at `virtual_hour = 14` (the peak hour) and its
minimum at `virtual_hour = 2` (12 hours opposite the peak, not hour 4). -/
theorem C8_amended_diurnal_extremes (h : ℝ) (_h0 : 0 ≤ h) (_h24 : h < 24) :
    diurnal_base_temperature 28 8 14 h ≤ diurnal_base_temperature 28 8 14 14 ∧
    diurnal_base_temperature 28 8 14 2 ≤ diurnal_base_temperature 28 8 14 h := by
  constructor
  · rw [diurnal_base_temperature_at_fourteen]
    unfold diurnal_base_temperature
    have hb := Real.sin_le_one ((h - 14 + 6) * (2 * Real.pi / 24))
    linarith
  · rw [diurnal_base_temperature_at_two]
    unfold diurnal_base_temperature
    have hb := Real.neg_one_le_sin ((h - 14 + 6) * (2 * Real.pi / 24))
    linarith

theorem C8_amended_diurnal_extremes_witness :
    diurnal_base_temperature 28 8 14 3 ≤ diurnal_base_temperature 28 8 14 14 ∧
    diurnal_base_temperature 28 8 14 2 ≤ diurnal_base_temperature 28 8 14 3 :=
  C8_amended_diurnal_extremes 3 (by norm_num) (by norm_num)

/-- C9: every tick increments `tick_count` by exactly 1 (it is 0 on
construction), and after every tick from a reachable state the virtual hour
lies in `[0, 24)`: it either advanced by `1 / ticks_per_virtual_hour` or
wrapped to 0 upon reaching 24. -/
theorem C9_tick_count_and_virtual_hour (sinPhase : ℚ → ℚ) (d : TickDraws)
    (e : WeatherSimulator) (h : Reachable sinPhase e) :
    (e.update_state sinPhase d).state.tick_count = e.state.tick_count + 1 ∧
    (WeatherSimulator.init none).state.tick_count = 0 ∧
    (0 ≤ (e.update_state sinPhase d).state.virtual_hour ∧
      (e.update_state sinPhase d).state.virtual_hour < 24) ∧
    (((e.update_state sinPhase d).state.virtual_hour =
        e.state.virtual_hour + 1 / (e.config.ticks_per_virtual_hour : ℚ) ∧
      e.state.virtual_hour + 1 / (e.config.ticks_per_virtual_hour : ℚ) < 24) ∨
     ((e.update_state sinPhase d).state.virtual_hour = 0 ∧
      24 ≤ e.state.virtual_hour + 1 / (e.config.ticks_per_virtual_hour : ℚ))) := by
  have k := reachable_engineOK h
  refine ⟨?_, rfl, ?_, ?_⟩
  · simp only [WeatherSimulator.update_state]
    rw [advance_time_tick_count]
  · simp only [WeatherSimulator.update_state]
    rw [advance_time_virtual_hour, k.cfg]
    push_cast
    exact ⟨(vh_step_bounds k.vh_lb).1, (vh_step_bounds k.vh_lb).2⟩
  · simp only [WeatherSimulator.update_state]
    rw [advance_time_virtual_hour]
    exact wrap_or_advance e.state.virtual_hour (1 / (e.config.ticks_per_virtual_hour : ℚ))

theorem C9_tick_count_and_virtual_hour_witness :
    ((WeatherSimulator.init none).update_state (fun _ => 0) {}).state.tick_count =
      (WeatherSimulator.init none).state.tick_count + 1 ∧
    (WeatherSimulator.init none).state.tick_count = 0 ∧
    (0 ≤ ((WeatherSimulator.init none).update_state (fun _ => 0) {}).state.virtual_hour ∧
      ((WeatherSimulator.init none).update_state (fun _ => 0) {}).state.virtual_hour < 24) ∧
    ((((WeatherSimulator.init none).update_state (fun _ => 0) {}).state.virtual_hour =
        (WeatherSimulator.init none).state.virtual_hour +
          1 / ((WeatherSimulator.init none).config.ticks_per_virtual_hour : ℚ) ∧
      (WeatherSimulator.init none).state.virtual_hour +
        1 / ((WeatherSimulator.init none).config.ticks_per_virtual_hour : ℚ) < 24) ∨
     (((WeatherSimulator.init none).update_state (fun _ => 0) {}).state.virtual_hour = 0 ∧
      24 ≤ (WeatherSimulator.init none).state.virtual_hour +
        1 / ((WeatherSimulator.init none).config.ticks_per_virtual_hour : ℚ))) :=
  C9_tick_count_and_virtual_hour (fun _ => 0) {} (WeatherSimulator.init none) ReachableD.init

/-- C10: `trigger_drought` sets only soil moisture, humidity and the three
rain fields; temperature, pressure, rainfall, wind speed, wind direction,
tick count, virtual hour, the stored alert list, the hidden pressure trend
and the configuration are all unchanged. -/
theorem C10_trigger_drought_frame (e : WeatherSimulator) :
    e.trigger_drought.state.temperature = e.state.temperature ∧
    e.trigger_drought.state.pressure = e.state.pressure ∧
    e.trigger_drought.state.rainfall = e.state.rainfall ∧
    e.trigger_drought.state.wind_speed = e.state.wind_speed ∧
    e.trigger_drought.state.wind_direction = e.state.wind_direction ∧
    e.trigger_drought.state.tick_count = e.state.tick_count ∧
    e.trigger_drought.state.virtual_hour = e.state.virtual_hour ∧
    e.trigger_drought.alerts = e.alerts ∧
    e.trigger_drought.pressure_trend = e.pressure_trend ∧
    e.trigger_drought.config = e.config ∧
    e.trigger_drought.state.soil_moisture = 10 ∧
    e.trigger_drought.state.humidity = 30 ∧
    e.trigger_drought.state.is_raining = false ∧
    e.trigger_drought.state.rain_intensity = 0 ∧
    e.trigger_drought.state.rain_ticks_remaining = 0 :=
  ⟨rfl, rfl, rfl, rfl, rfl, rfl, rfl, rfl, rfl, rfl, rfl, rfl, rfl, rfl, rfl⟩

end AgriNexus
